import Mathlib

/-!
Shallow embedding of the `cw-vault-token` crate: the token-backend
implementations (`OsmosisDenom`, `NeutronDenom`, `Cw4626`, `Cw20`), the
single-slot token store, and the reply-correlation handler, together with
proofs of the behavioural properties claimed about them.

Rust strings are modelled as lists of characters, `Uint128` values as
natural numbers below `2 ^ 128` with explicit overflow checks, contract
storage as explicit record state threaded through each operation, and
fallible operations as `Except`-valued functions that return the final
storage state alongside the result.
-/

/-- Rust `String` / `&str`, modelled as a list of characters. -/
abbrev RStr := List Char

/-- One more than the largest `Uint128` value. -/
def UINT128_MOD : Nat := 2 ^ 128

/-- `Uint128::checked_add`: `none` models an `OverflowError` on addition. -/
def checkedAdd (a b : Nat) : Option Nat :=
  if a + b < UINT128_MOD then some (a + b) else none

/-- `Uint128::checked_sub`: `none` models an `OverflowError` on subtraction. -/
def checkedSub (a b : Nat) : Option Nat :=
  if b ≤ a then some (a - b) else none

/-- `cosmwasm_std::OverflowOperation` (the operations used by this crate). -/
inductive OverflowOperation
  | add
  | sub
deriving DecidableEq

/-- `cosmwasm_std::OverflowError`: the failed operation and its operands. -/
structure OverflowError where
  operation : OverflowOperation
  operand1 : Nat
  operand2 : Nat
deriving DecidableEq

/-- The `cosmwasm_std::StdError` variants this crate produces. -/
inductive StdError
  | genericErr (msg : RStr)
  | overflow (e : OverflowError)
  | notFound (kind : RStr)
deriving DecidableEq

/-- `cw_utils::ParseReplyError` variants relevant to `parse_reply_instantiate_data`. -/
inductive ParseReplyError
  | subMsgFailure (msg : RStr)
  | parseFailure (msg : RStr)
deriving DecidableEq

/-- `cw20_base::ContractError` variants produced by `Cw4626::mint`. -/
inductive Cw20BaseError
  | invalidZeroAmount
  | unauthorized
deriving DecidableEq

/-- `CwTokenError` from `src/error.rs`: the crate-level error taxonomy. -/
inductive CwTokenError
  | std (e : StdError)
  | invalidReplyId
  | parseReplyError (e : ParseReplyError)
  | cw20ContractError (e : Cw20BaseError)
deriving DecidableEq

/-- `cosmwasm_std::Coin`: a denom together with a `Uint128` amount. -/
structure Coin where
  denom : RStr
  amount : Nat
deriving DecidableEq

/-- The `Display` impl of `Coin`: decimal digits of the amount, then the denom. -/
def coinDisplay (c : Coin) : RStr :=
  (Nat.repr c.amount).toList ++ c.denom

/-- A key/value attribute of an event or response. -/
structure Attribute where
  key : RStr
  value : RStr
deriving DecidableEq

/-- `cosmwasm_std::Event`: a type string plus ordered attributes. -/
structure Event where
  ty : RStr
  attributes : List Attribute
deriving DecidableEq

/-- The outbound host messages this crate constructs. Proto string fields
(token-factory amounts) are kept as the decimal string of the amount. -/
inductive CosmosMsg
  | tfMint (sender : RStr) (denom : RStr) (amount : RStr)
  | tfBurn (sender : RStr) (denom : RStr) (amount : RStr)
  | tfCreateDenom (sender : RStr) (subdenom : RStr)
  | bankSend (toAddress : RStr) (amount : List Coin)
deriving DecidableEq

/-- `cosmwasm_std::Response`: messages, top-level attributes, and events. -/
structure Response where
  messages : List CosmosMsg
  attributes : List Attribute
  events : List Event
deriving DecidableEq

/-- The part of `cosmwasm_std::Env` this crate reads: the contract address. -/
structure Env where
  contractAddress : RStr
deriving DecidableEq

/-- `cosmwasm_std::MessageInfo`: the sender and the attached funds. -/
structure MessageInfo where
  sender : RStr
  funds : List Coin
deriving DecidableEq

/-- `deps.api.addr_validate`, modelled as an ambient validation function:
`some a` is a successfully validated (canonicalised) address, `none` a
validation failure. Theorems quantify over the function. -/
abbrev AddrApi := RStr → Option RStr

/-- `Result::is_ok` for `Except` results. -/
def resultIsOk {ε α : Type} : Except ε α → Bool
  | .ok _ => true
  | .error _ => false

/-! ## Denom strings: `split('/')` and `format!("factory/{}/{}", ..)` -/

/-- Rust's `str::split('/')` collected to a vector: splits a character list
at every `'/'`, keeping empty segments, and yields at least one segment. -/
def splitSlash : RStr → List RStr
  | [] => [[]]
  | c :: cs =>
    if c = '/' then [] :: splitSlash cs
    else
      match splitSlash cs with
      | [] => [[c]]
      | p :: ps => (c :: p) :: ps

/-! ## OsmosisDenom (`src/implementations/osmosis.rs`) -/

/-- `OsmosisDenom`: an (owner, subdenom) pair naming a token-factory denom. -/
structure OsmosisDenom where
  owner : RStr
  subdenom : RStr
deriving DecidableEq

/-- The error message of `OsmosisDenom::from_native_denom`. -/
def osmosisBadDenomMsg : RStr :=
  "Can\x27t create OsmosisDenom from invalid denom.".toList

/-- The error message of `NeutronDenom::from_native_denom`. -/
def neutronBadDenomMsg : RStr :=
  "Can\x27t create NeutronDenom from invalid denom.".toList

/-- The `Display` impl: `format!("factory/{}/{}", owner, subdenom)`. -/
def OsmosisDenom.toDenomStr (d : OsmosisDenom) : RStr :=
  "factory".toList ++ '/' :: d.owner ++ '/' :: d.subdenom

/-- `OsmosisDenom::from_native_denom`: split on `'/'`, require exactly three
segments with the first literally `factory`, else a generic format error. -/
def OsmosisDenom.from_native_denom (denom : RStr) : Except StdError OsmosisDenom :=
  match splitSlash denom with
  | [p0, p1, p2] =>
    if p0 = "factory".toList then .ok ⟨p1, p2⟩
    else .error (.genericErr osmosisBadDenomMsg)
  | _ => .error (.genericErr osmosisBadDenomMsg)

/-- The receive-mismatch message: `format!("Expected to receive {}", coin)`. -/
def expectedReceiveMsg (c : Coin) : RStr :=
  "Expected to receive ".toList ++ coinDisplay c

/-- `Receive for OsmosisDenom`: succeed iff `info.funds` contains the exact
coin `(denom, amount)`, else fail with the mismatch message. Reads no state. -/
def OsmosisDenom.receive (d : OsmosisDenom) (info : MessageInfo) (amount : Nat) :
    Except StdError Unit :=
  let required : Coin := ⟨d.toDenomStr, amount⟩
  if required ∈ info.funds then .ok ()
  else .error (.genericErr (expectedReceiveMsg required))

/-- `Mint for OsmosisDenom`: emit a token-factory `MsgMint` followed by a bank
send of the minted coins to the recipient. No zero-amount check, no state. -/
def OsmosisDenom.mint (d : OsmosisDenom) (env : Env) (recipient : RStr)
    (amount : Nat) : Except CwTokenError Response :=
  .ok
    { messages :=
        [.tfMint env.contractAddress d.toDenomStr (Nat.repr amount).toList,
         .bankSend recipient [⟨d.toDenomStr, amount⟩]],
      attributes := [],
      events := [] }

/-- `Burn for OsmosisDenom`: emit a token-factory `MsgBurn`. No state. -/
def OsmosisDenom.burn (d : OsmosisDenom) (env : Env) (amount : Nat) :
    Except CwTokenError Response :=
  .ok
    { messages := [.tfBurn env.contractAddress d.toDenomStr (Nat.repr amount).toList],
      attributes := [],
      events := [] }

/-! ## NeutronDenom (`src/implementations/neutron.rs`) -/

/-- `NeutronDenom`: structurally identical to `OsmosisDenom`. -/
structure NeutronDenom where
  owner : RStr
  subdenom : RStr
deriving DecidableEq

/-- The `Display` impl: `format!("factory/{}/{}", owner, subdenom)`. -/
def NeutronDenom.toDenomStr (d : NeutronDenom) : RStr :=
  "factory".toList ++ '/' :: d.owner ++ '/' :: d.subdenom

/-- `NeutronDenom::from_native_denom`, same shape check as the Osmosis one. -/
def NeutronDenom.from_native_denom (denom : RStr) : Except StdError NeutronDenom :=
  match splitSlash denom with
  | [p0, p1, p2] =>
    if p0 = "factory".toList then .ok ⟨p1, p2⟩
    else .error (.genericErr neutronBadDenomMsg)
  | _ => .error (.genericErr neutronBadDenomMsg)

/-- The `TOTAL_SUPPLY` item (`Item<Uint128>` under `neutron_denom_total_supply`):
`none` models a never-written slot, read back through `may_load` + default. -/
structure NeutronState where
  totalSupply : Option Nat
deriving DecidableEq

/-- `VaultToken::query_total_supply` for `NeutronDenom`:
`TOTAL_SUPPLY.may_load(..)?.unwrap_or_default()`. -/
def NeutronDenom.query_total_supply (s : NeutronState) : Nat :=
  s.totalSupply.getD 0

/-- The event attributes built by `NeutronDenom::mint`. -/
def NeutronDenom.mintAttrs (d : NeutronDenom) (recipient : RStr) (amount : Nat) :
    List Attribute :=
  [⟨"action".toList, "mint".toList⟩,
   ⟨"denom".toList, d.toDenomStr⟩,
   ⟨"amount".toList, (Nat.repr amount).toList⟩,
   ⟨"recipient".toList, recipient⟩]

/-- `Mint for NeutronDenom`: build the token-factory `MsgMint` and bank send,
add `amount` to the locally tracked supply (`checked_add`, error on overflow
before any write), save the new supply, and emit the mint event. -/
def NeutronDenom.mint (d : NeutronDenom) (s : NeutronState) (env : Env)
    (recipient : RStr) (amount : Nat) :
    Except CwTokenError Response × NeutronState :=
  let ts := s.totalSupply.getD 0
  match checkedAdd ts amount with
  | none => (.error (.std (.overflow ⟨.add, ts, amount⟩)), s)
  | some ts2 =>
    (.ok
      { messages :=
          [.tfMint env.contractAddress d.toDenomStr (Nat.repr amount).toList,
           .bankSend recipient [⟨d.toDenomStr, amount⟩]],
        attributes := [],
        events :=
          [⟨"apollo/cw-vault-token/neutron".toList, d.mintAttrs recipient amount⟩] },
     { totalSupply := some ts2 })

/-- The event attributes built by `NeutronDenom::burn`. -/
def NeutronDenom.burnAttrs (d : NeutronDenom) (amount : Nat) : List Attribute :=
  [⟨"action".toList, "burn".toList⟩,
   ⟨"denom".toList, d.toDenomStr⟩,
   ⟨"amount".toList, (Nat.repr amount).toList⟩]

/-- `Burn for NeutronDenom`: subtract `amount` from the locally tracked supply
(`checked_sub`, underflow error before any write), save it, and emit the
token-factory `MsgBurn` plus the burn event. -/
def NeutronDenom.burn (d : NeutronDenom) (s : NeutronState) (env : Env)
    (amount : Nat) : Except CwTokenError Response × NeutronState :=
  let ts := s.totalSupply.getD 0
  match checkedSub ts amount with
  | none => (.error (.std (.overflow ⟨.sub, ts, amount⟩)), s)
  | some ts2 =>
    (.ok
      { messages := [.tfBurn env.contractAddress d.toDenomStr (Nat.repr amount).toList],
        attributes := [],
        events := [⟨"apollo/cw-vault-token/neutron".toList, d.burnAttrs amount⟩] },
     { totalSupply := some ts2 })

/-- `Receive for NeutronDenom`: identical exact-coin check as for Osmosis. -/
def NeutronDenom.receive (d : NeutronDenom) (info : MessageInfo) (amount : Nat) :
    Except StdError Unit :=
  let required : Coin := ⟨d.toDenomStr, amount⟩
  if required ∈ info.funds then .ok ()
  else .error (.genericErr (expectedReceiveMsg required))

/-! ## Cw4626 (`src/implementations/cw4626.rs`), over `cw20_base` storage -/

/-- `cw20_base::state::MinterData` (never set by this crate). -/
structure MinterData where
  minter : RStr
  cap : Option Nat
deriving DecidableEq

/-- `cw20_base::state::TokenInfo`, the `TOKEN_INFO` slot payload. -/
structure TokenInfo where
  name : RStr
  symbol : RStr
  decimals : Nat
  total_supply : Nat
  mint : Option MinterData
deriving DecidableEq

/-- The `cw20_base` storage a `Cw4626` operates on: the optional `TOKEN_INFO`
item (absent until `instantiate`) and the `BALANCES` map (absent keys read as
zero through `unwrap_or_default`). -/
structure Cw4626State where
  tokenInfo : Option TokenInfo
  balances : RStr → Option Nat

/-- Point update of the `BALANCES` map (`BALANCES.update` writes `some v`). -/
def setBal (b : RStr → Option Nat) (k : RStr) (v : Nat) : RStr → Option Nat :=
  fun a => if a = k then some v else b a

/-- Balance as read back by `cw20_base::contract::query_balance`:
`BALANCES.may_load(..)?.unwrap_or_default()`. -/
def Cw4626State.getBalance (s : Cw4626State) (addr : RStr) : Nat :=
  (s.balances addr).getD 0

/-- `Cw4626`: the own address of the hosting contract. -/
structure Cw4626 where
  address : RStr
deriving DecidableEq

/-- The attributes built by `Cw4626::mint`. -/
def Cw4626.mintAttrs (t : Cw4626) (recipient : RStr) (amount : Nat) :
    List Attribute :=
  [⟨"action".toList, "mint".toList⟩,
   ⟨"vault_token_address".toList, t.address⟩,
   ⟨"amount".toList, (Nat.repr amount).toList⟩,
   ⟨"recipient".toList, recipient⟩]

/-- `Mint for Cw4626`: reject a zero amount, fail `Unauthorized` when
`TOKEN_INFO` was never stored, add `amount` to the total supply and to the
balance of the validated recipient, and return the mint event and attributes.
`Uint128` addition (`+`) panics on overflow in the source; a panic aborts the
transaction and reverts every write, so those branches return an overflow
error with the original state. -/
def Cw4626.mint (t : Cw4626) (api : AddrApi) (s : Cw4626State)
    (recipient : RStr) (amount : Nat) :
    Except CwTokenError Response × Cw4626State :=
  if amount = 0 then (.error (.cw20ContractError .invalidZeroAmount), s)
  else
    match s.tokenInfo with
    | none => (.error (.cw20ContractError .unauthorized), s)
    | some config =>
      match checkedAdd config.total_supply amount with
      | none =>
        (.error (.std (.overflow ⟨.add, config.total_supply, amount⟩)), s)
      | some ts2 =>
        let s1 : Cw4626State :=
          { s with tokenInfo := some { config with total_supply := ts2 } }
        match api recipient with
        | none => (.error (.std (.genericErr ("invalid address".toList))), s1)
        | some rcpt =>
          let bal := (s1.balances rcpt).getD 0
          match checkedAdd bal amount with
          | none => (.error (.std (.overflow ⟨.add, bal, amount⟩)), s)
          | some bal2 =>
            let s2 : Cw4626State := { s1 with balances := setBal s1.balances rcpt bal2 }
            (.ok
              { messages := [],
                attributes := t.mintAttrs recipient amount,
                events :=
                  [⟨"apollo/cw-vault-token/cw4626".toList, t.mintAttrs recipient amount⟩] },
             s2)

/-- The attributes built by `Cw4626::burn`. -/
def Cw4626.burnAttrs (t : Cw4626) (amount : Nat) : List Attribute :=
  [⟨"action".toList, "burn".toList⟩,
   ⟨"vault_token_address".toList, t.address⟩,
   ⟨"amount".toList, (Nat.repr amount).toList⟩]

/-- `Burn for Cw4626`: `checked_sub` `amount` from the own balance of the contract
(underflow error before any write), then load `TOKEN_INFO` (not-found error if
absent, after the balance write) and `checked_sub` the total supply. -/
def Cw4626.burn (t : Cw4626) (s : Cw4626State) (env : Env) (amount : Nat) :
    Except CwTokenError Response × Cw4626State :=
  let bal := (s.balances env.contractAddress).getD 0
  match checkedSub bal amount with
  | none => (.error (.std (.overflow ⟨.sub, bal, amount⟩)), s)
  | some bal2 =>
    let s1 : Cw4626State := { s with balances := setBal s.balances env.contractAddress bal2 }
    match s1.tokenInfo with
    | none => (.error (.std (.notFound ("cw20_base::state::TokenInfo".toList))), s1)
    | some meta =>
      match checkedSub meta.total_supply amount with
      | none => (.error (.std (.overflow ⟨.sub, meta.total_supply, amount⟩)), s1)
      | some ts2 =>
        (.ok
          { messages := [],
            attributes := t.burnAttrs amount,
            events := [⟨"apollo/cw-vault-token/cw4626".toList, t.burnAttrs amount⟩] },
         { s1 with tokenInfo := some { meta with total_supply := ts2 } })

/-- `Receive for Cw4626`: an internal ledger transfer, `checked_sub` from the
balance of the sender (underflow error before any write) then add to the
balance of the contract (`+` panics on overflow: modelled as an error reverting to
the original state, as a panic aborts the transaction). -/
def Cw4626.receive (_t : Cw4626) (s : Cw4626State) (env : Env)
    (info : MessageInfo) (amount : Nat) : Except StdError Unit × Cw4626State :=
  let ownerBal := (s.balances info.sender).getD 0
  match checkedSub ownerBal amount with
  | none => (.error (.overflow ⟨.sub, ownerBal, amount⟩), s)
  | some ob2 =>
    let s1 : Cw4626State := { s with balances := setBal s.balances info.sender ob2 }
    let rcptBal := (s1.balances env.contractAddress).getD 0
    match checkedAdd rcptBal amount with
    | none => (.error (.overflow ⟨.add, rcptBal, amount⟩), s)
    | some rb2 =>
      (.ok (), { s1 with balances := setBal s1.balances env.contractAddress rb2 })

/-- `VaultToken::query_total_supply` for `Cw4626`: `TOKEN_INFO.load(..)?.total_supply`. -/
def Cw4626.query_total_supply (s : Cw4626State) : Except CwTokenError Nat :=
  match s.tokenInfo with
  | none => .error (.std (.notFound ("cw20_base::state::TokenInfo".toList)))
  | some info => .ok info.total_supply

/-! ## Cw20 (`src/implementations/cw20.rs`) and the single-slot store -/

/-- `Cw20`: the remembered address of a delegated cw20 contract. -/
structure Cw20 where
  addr : RStr
deriving DecidableEq

/-- The single-slot token store (`Item` under key `store_token` from
`src/state.rs`), holding at most one persisted `Cw20` identity. -/
structure Cw20Store where
  token : Option Cw20
deriving DecidableEq

/-- `TokenStorage::load`: `Item::load`, a not-found error if never saved. -/
def Cw20.load (s : Cw20Store) : Except CwTokenError Cw20 :=
  match s.token with
  | none => .error (.std (.notFound ("cw_token::Cw20".toList)))
  | some t => .ok t

/-- `TokenStorage::save`: `Item::save`, an atomic overwrite of the slot. -/
def Cw20.save (t : Cw20) (_s : Cw20Store) : Cw20Store :=
  { token := some t }

/-- The reserved correlation id for saving the instantiated cw20 address. -/
def REPLY_SAVE_CW20_ADDRESS : Nat := 14509

/-- The payload of `cw_utils::MsgInstantiateContractResponse`, with the
protobuf bytes modelled as the already-decoded response. -/
structure MsgInstantiateContractResponse where
  contractAddress : RStr
deriving DecidableEq

/-- `cosmwasm_std::Reply`: the correlation id and the sub-message result,
whose `data` payload is optional. -/
structure Reply where
  id : Nat
  result : Except RStr (Option MsgInstantiateContractResponse)

/-- `cw_utils::parse_reply_instantiate_data` (an external collaborator of
this crate): unwrap the sub-message result (`SubMsgFailure` carrying the
host error verbatim), require a `data` payload, and decode it. -/
def parse_reply_instantiate_data (r : Reply) :
    Except ParseReplyError MsgInstantiateContractResponse :=
  match r.result with
  | .error e => .error (.subMsgFailure e)
  | .ok none => .error (.parseFailure ("Missing reply data".toList))
  | .ok (some d) => .ok d

/-- `Cw20::reply_save_token`: on the reserved id, parse the instantiate
reply, validate the returned contract address, save the `Cw20` identity into
the single-slot store and return the confirmation attributes; on any other
id, fail with `InvalidReplyId` and keep the store untouched. -/
def Cw20.reply_save_token (api : AddrApi) (s : Cw20Store) (reply : Reply) :
    Except CwTokenError Response × Cw20Store :=
  if reply.id = REPLY_SAVE_CW20_ADDRESS then
    match parse_reply_instantiate_data reply with
    | .error e => (.error (.parseReplyError e), s)
    | .ok res =>
      match api res.contractAddress with
      | none => (.error (.std (.genericErr ("invalid address".toList))), s)
      | some addr =>
        (.ok
          { messages := [],
            attributes :=
              [⟨"action".toList, "save_cw20_addr".toList⟩,
               ⟨"contract_addr".toList, addr⟩],
            events := [] },
         Cw20.save ⟨addr⟩ s)
  else (.error .invalidReplyId, s)

/-- A cw20_base token-info fixture: 6 decimals, supply 100, no minter. -/
def sampleTokenInfo : TokenInfo :=
  ⟨"Vault".toList, "VT".toList, 6, 100, none⟩

/-- A cw4626 storage fixture: instantiated token info and a single holder
`sender` with balance 1000. -/
def sampleState : Cw4626State :=
  { tokenInfo := some sampleTokenInfo,
    balances := fun a => if a = "sender".toList then some 1000 else none }

/-! ## Theorems -/

theorem splitSlash_ne_nil (l : RStr) : splitSlash l ≠ [] := by
  cases l with
  | nil => simp [splitSlash]
  | cons c cs =>
    simp only [splitSlash]
    split
    · simp
    · split <;> simp

theorem splitSlash_slash_cons (l : RStr) :
    splitSlash ('/' :: l) = [] :: splitSlash l := by
  simp [splitSlash]

theorem splitSlash_append (xs : RStr) (h : '/' ∉ xs) (l : RStr) (p : RStr)
    (ps : List RStr) (hl : splitSlash l = p :: ps) :
    splitSlash (xs ++ l) = (xs ++ p) :: ps := by
  induction xs with
  | nil => simpa using hl
  | cons c cs ih =>
    have hc : ¬ (c = '/') := by
      intro hh
      exact h (hh ▸ List.mem_cons_self c cs)
    have hcs : '/' ∉ cs := fun hh => h (List.mem_cons_of_mem c hh)
    have ih' : splitSlash (cs.append l) = (cs ++ p) :: ps := ih hcs
    simp only [List.cons_append, splitSlash, if_neg hc, ih']

theorem splitSlash_no_slash (xs : RStr) (h : '/' ∉ xs) :
    splitSlash xs = [xs] := by
  have := splitSlash_append xs h [] [] [] (by simp [splitSlash])
  simpa using this

theorem splitSlash_factory (owner sub : RStr) (ho : '/' ∉ owner)
    (hs : '/' ∉ sub) :
    splitSlash ("factory".toList ++ '/' :: owner ++ '/' :: sub)
      = ["factory".toList, owner, sub] := by
  have h1 : splitSlash sub = [sub] := splitSlash_no_slash sub hs
  have h2 : splitSlash ('/' :: sub) = [] :: [sub] := by
    rw [splitSlash_slash_cons, h1]
  have h3 : splitSlash (owner ++ '/' :: sub) = (owner ++ []) :: [sub] :=
    splitSlash_append owner ho _ [] [sub] h2
  have h4 : splitSlash ('/' :: (owner ++ '/' :: sub))
      = [] :: (owner ++ []) :: [sub] := by
    rw [splitSlash_slash_cons, h3]
  have h5 := splitSlash_append ("factory".toList) (by decide) _ []
    ((owner ++ []) :: [sub]) h4
  simpa using h5

/-- Claim C6: for every (owner, subdenom) pair in which neither string
contains `'/'`, formatting the identity to `factory/{owner}/{subdenom}` and
parsing that string back with `from_native_denom` returns the original
identity, for both `OsmosisDenom` and `NeutronDenom`. -/
theorem C6_denom_roundtrip :
    (∀ d : OsmosisDenom, '/' ∉ d.owner → '/' ∉ d.subdenom →
      OsmosisDenom.from_native_denom d.toDenomStr = .ok d) ∧
    (∀ d : NeutronDenom, '/' ∉ d.owner → '/' ∉ d.subdenom →
      NeutronDenom.from_native_denom d.toDenomStr = .ok d) := by
  constructor
  · intro d ho hs
    unfold OsmosisDenom.from_native_denom OsmosisDenom.toDenomStr
    rw [splitSlash_factory d.owner d.subdenom ho hs]
    simp
  · intro d ho hs
    unfold NeutronDenom.from_native_denom NeutronDenom.toDenomStr
    rw [splitSlash_factory d.owner d.subdenom ho hs]
    simp

/-- Witness for C6 at owner `alice`, subdenom `vault`. -/
theorem C6_denom_roundtrip_witness :
    '/' ∉ "alice".toList ∧ '/' ∉ "vault".toList ∧
    OsmosisDenom.from_native_denom
        (OsmosisDenom.toDenomStr ⟨"alice".toList, "vault".toList⟩)
      = .ok ⟨"alice".toList, "vault".toList⟩ :=
  ⟨by decide, by decide,
    C6_denom_roundtrip.1 ⟨"alice".toList, "vault".toList⟩ (by decide) (by decide)⟩

/-- Claim C7: a string that splits on `'/'` into exactly three segments with
first segment literally `factory` parses into owner = second segment and
subdenom = third segment; every other string fails with the format error —
for both `OsmosisDenom` and `NeutronDenom`. -/
theorem C7_parse_shape (s : RStr) :
    (∀ p1 p2 : RStr, splitSlash s = ["factory".toList, p1, p2] →
      OsmosisDenom.from_native_denom s = .ok ⟨p1, p2⟩ ∧
      NeutronDenom.from_native_denom s = .ok ⟨p1, p2⟩) ∧
    ((¬ ∃ p1 p2 : RStr, splitSlash s = ["factory".toList, p1, p2]) →
      OsmosisDenom.from_native_denom s = .error (.genericErr osmosisBadDenomMsg) ∧
      NeutronDenom.from_native_denom s = .error (.genericErr neutronBadDenomMsg)) := by
  constructor
  · intro p1 p2 h
    unfold OsmosisDenom.from_native_denom NeutronDenom.from_native_denom
    rw [h]
    simp
  · intro h
    unfold OsmosisDenom.from_native_denom NeutronDenom.from_native_denom
    rcases hl : splitSlash s with _ | ⟨p0, _ | ⟨p1, _ | ⟨p2, _ | ⟨p3, rest⟩⟩⟩⟩
    · simp
    · simp
    · simp
    · by_cases hp : p0 = "factory".toList
      · exact absurd ⟨p1, p2, by rw [hl, hp]⟩ h
      · have hp2 : ¬ p0 = ['f', 'a', 'c', 't', 'o', 'r', 'y'] := hp
        simp [hp2]
    · simp

/-- Witness for C7: a parse of `factory/alice/vault` and a rejection of
`wrong/a/b`. -/
theorem C7_parse_shape_witness :
    OsmosisDenom.from_native_denom ("factory/alice/vault".toList)
      = .ok ⟨"alice".toList, "vault".toList⟩ ∧
    OsmosisDenom.from_native_denom ("wrong/a/b".toList)
      = .error (.genericErr osmosisBadDenomMsg) := by
  constructor
  · exact ((C7_parse_shape ("factory/alice/vault".toList)).1
      ("alice".toList) ("vault".toList) (by decide)).1
  · refine ((C7_parse_shape ("wrong/a/b".toList)).2 ?_).1
    rintro ⟨p1, p2, h⟩
    have h0 : splitSlash ("wrong/a/b".toList)
        = "wrong".toList :: "a".toList :: ["b".toList] := by decide
    rw [h0] at h
    have h1 : "wrong".toList = "factory".toList := (List.cons_eq_cons.mp h).1
    exact absurd h1 (by decide)

/-- Claim C1: for the Cw20 backend, a reply carrying the reserved id
`REPLY_SAVE_CW20_ADDRESS` whose payload holds a contract address that passes
validation persists the `Cw20` identity into the single-slot store, and an
immediate `load` from the same storage returns exactly that identity. -/
theorem C1_reply_saves_identity (api : AddrApi) (s : Cw20Store) (reply : Reply)
    (d : MsgInstantiateContractResponse) (addr : RStr)
    (hid : reply.id = REPLY_SAVE_CW20_ADDRESS)
    (hres : reply.result = .ok (some d))
    (hval : api d.contractAddress = some addr) :
    resultIsOk (Cw20.reply_save_token api s reply).1 = true ∧
    (Cw20.reply_save_token api s reply).2 = ⟨some ⟨addr⟩⟩ ∧
    Cw20.load (Cw20.reply_save_token api s reply).2 = .ok ⟨addr⟩ := by
  simp [Cw20.reply_save_token, parse_reply_instantiate_data, hid, hres, hval,
    Cw20.save, Cw20.load, resultIsOk]

/-- Witness for C1: a reply with id 14509 and address `contract7`, validated
by the identity api, saved into an empty store. -/
theorem C1_reply_saves_identity_witness :
    (Reply.id ⟨14509, .ok (some ⟨"contract7".toList⟩)⟩ = REPLY_SAVE_CW20_ADDRESS) ∧
    Cw20.load (Cw20.reply_save_token (fun a => some a) ⟨none⟩
        ⟨14509, .ok (some ⟨"contract7".toList⟩)⟩).2
      = .ok ⟨"contract7".toList⟩ :=
  ⟨by decide,
    (C1_reply_saves_identity (fun a => some a) ⟨none⟩
      ⟨14509, .ok (some ⟨"contract7".toList⟩)⟩ ⟨"contract7".toList⟩
      ("contract7".toList) (by decide) rfl rfl).2.2⟩

/-- Claim C2: every reply whose correlation id differs from
`REPLY_SAVE_CW20_ADDRESS` makes `reply_save_token` fail with `InvalidReplyId`
and leaves the single-slot store exactly as it was. -/
theorem C2_invalid_reply_id (api : AddrApi) (s : Cw20Store) (reply : Reply)
    (h : reply.id ≠ REPLY_SAVE_CW20_ADDRESS) :
    Cw20.reply_save_token api s reply = (.error .invalidReplyId, s) := by
  unfold Cw20.reply_save_token
  rw [if_neg h]

/-- Witness for C2 at reply id 1. -/
theorem C2_invalid_reply_id_witness :
    (Reply.id ⟨1, .ok none⟩ ≠ REPLY_SAVE_CW20_ADDRESS) ∧
    Cw20.reply_save_token (fun a => some a) ⟨none⟩ ⟨1, .ok none⟩
      = (.error .invalidReplyId, ⟨none⟩) :=
  ⟨by decide, C2_invalid_reply_id (fun a => some a) ⟨none⟩ ⟨1, .ok none⟩ (by decide)⟩

/-- Counterexample to claim C3 as stated: for the `Cw4626` backend,
`receive(250)` with an available (sender) balance of 1000 — strictly greater
than the requested amount — succeeds instead of failing with a mismatch
error. (`Cw4626::receive` is an internal ledger transfer; only the two
native-denom backends enforce an exact match.) -/
theorem C3_counterexample :
    (250 < 1000) ∧
    (Cw4626.receive ⟨"cw4626".toList⟩ sampleState ⟨"cw4626".toList⟩
        ⟨"sender".toList, []⟩ 250).1 = .ok () := by
  constructor
  · decide
  · rfl

/-- Claim C3 (amended): `OsmosisDenom` and `NeutronDenom` `receive(amount)`
with a single attached coin of the denom of the token succeeds iff the attached
amount equals `amount` exactly, failing otherwise with the
`Expected to receive` mismatch error; `Cw4626::receive` instead transfers
`amount` from the sender to the contract and (when the contract balance
cannot overflow and the sender is not the contract) succeeds iff the
sender balance is at least `amount`. -/
theorem C3_amended_receive :
    (∀ (d : OsmosisDenom) (sender : RStr) (v amount : Nat),
      (resultIsOk (d.receive ⟨sender, [⟨d.toDenomStr, v⟩]⟩ amount) = true ↔
        v = amount)) ∧
    (∀ (d : OsmosisDenom) (sender : RStr) (v amount : Nat), v ≠ amount →
      d.receive ⟨sender, [⟨d.toDenomStr, v⟩]⟩ amount
        = .error (.genericErr (expectedReceiveMsg ⟨d.toDenomStr, amount⟩))) ∧
    (∀ (d : NeutronDenom) (sender : RStr) (v amount : Nat),
      (resultIsOk (d.receive ⟨sender, [⟨d.toDenomStr, v⟩]⟩ amount) = true ↔
        v = amount)) ∧
    (∀ (d : NeutronDenom) (sender : RStr) (v amount : Nat), v ≠ amount →
      d.receive ⟨sender, [⟨d.toDenomStr, v⟩]⟩ amount
        = .error (.genericErr (expectedReceiveMsg ⟨d.toDenomStr, amount⟩))) ∧
    (∀ (t : Cw4626) (s : Cw4626State) (env : Env) (info : MessageInfo)
        (amount : Nat),
      info.sender ≠ env.contractAddress →
      s.getBalance env.contractAddress + amount < UINT128_MOD →
      (resultIsOk (Cw4626.receive t s env info amount).1 = true ↔
        amount ≤ s.getBalance info.sender)) := by
  refine ⟨?_, ?_, ?_, ?_, ?_⟩
  · intro d sender v amount
    simp only [OsmosisDenom.receive, List.mem_singleton]
    by_cases h : (⟨d.toDenomStr, amount⟩ : Coin) = ⟨d.toDenomStr, v⟩
    · have hv : v = amount := ((Coin.mk.injEq _ _ _ _).mp h).2.symm
      simp [h, resultIsOk, hv]
    · have hv : v ≠ amount := by
        intro hv
        exact h (by rw [hv])
      simp [h, resultIsOk, hv]
  · intro d sender v amount hv
    have h : ¬ ((⟨d.toDenomStr, amount⟩ : Coin) = ⟨d.toDenomStr, v⟩) := by
      intro h
      exact hv (((Coin.mk.injEq _ _ _ _).mp h).2.symm)
    simp [OsmosisDenom.receive, List.mem_singleton, h]
  · intro d sender v amount
    simp only [NeutronDenom.receive, List.mem_singleton]
    by_cases h : (⟨d.toDenomStr, amount⟩ : Coin) = ⟨d.toDenomStr, v⟩
    · have hv : v = amount := ((Coin.mk.injEq _ _ _ _).mp h).2.symm
      simp [h, resultIsOk, hv]
    · have hv : v ≠ amount := by
        intro hv
        exact h (by rw [hv])
      simp [h, resultIsOk, hv]
  · intro d sender v amount hv
    have h : ¬ ((⟨d.toDenomStr, amount⟩ : Coin) = ⟨d.toDenomStr, v⟩) := by
      intro h
      exact hv (((Coin.mk.injEq _ _ _ _).mp h).2.symm)
    simp [NeutronDenom.receive, List.mem_singleton, h]
  · intro t s env info amount hne hov
    by_cases hle : amount ≤ s.getBalance info.sender
    · have h1 : checkedSub ((s.balances info.sender).getD 0) amount
          = some ((s.balances info.sender).getD 0 - amount) := by
        simp [checkedSub, hle, Cw4626State.getBalance]
        exact hle
      have h2 : setBal s.balances info.sender
            ((s.balances info.sender).getD 0 - amount) env.contractAddress
          = s.balances env.contractAddress := by
        simp [setBal, Ne.symm hne]
      have hov' : (s.balances env.contractAddress).getD 0 + amount < UINT128_MOD := hov
      have h3 : checkedAdd ((s.balances env.contractAddress).getD 0) amount
          = some ((s.balances env.contractAddress).getD 0 + amount) := by
        simp only [checkedAdd]
        rw [if_pos hov']
      simp only [Cw4626.receive, h1, h2, h3, resultIsOk]
      simpa using hle
    · have h1 : checkedSub ((s.balances info.sender).getD 0) amount = none := by
        simp only [checkedSub, Cw4626State.getBalance] at hle ⊢
        rw [if_neg hle]
      simp only [Cw4626.receive, h1, resultIsOk]
      simpa using hle

/-- Witness for the amended C3: exact-match receive on Osmosis at 500, and a
cw4626 internal transfer of 250 against a sender balance of 1000. -/
theorem C3_amended_receive_witness :
    (resultIsOk (OsmosisDenom.receive ⟨"alice".toList, "vault".toList⟩
        ⟨"bob".toList,
         [⟨OsmosisDenom.toDenomStr ⟨"alice".toList, "vault".toList⟩, 500⟩]⟩ 500)
      = true) ∧
    ("sender".toList ≠ "cw4626".toList) ∧
    (resultIsOk (Cw4626.receive ⟨"cw4626".toList⟩ sampleState ⟨"cw4626".toList⟩
        ⟨"sender".toList, []⟩ 250).1 = true) :=
  ⟨(C3_amended_receive.1 ⟨"alice".toList, "vault".toList⟩ ("bob".toList)
      500 500).mpr rfl,
   by decide,
   (C3_amended_receive.2.2.2.2 ⟨"cw4626".toList⟩ sampleState ⟨"cw4626".toList⟩
      ⟨"sender".toList, []⟩ 250 (by decide) (by decide)).mpr (by decide)⟩

/-- Counterexample to claim C4 as stated: `OsmosisDenom::mint` and
`NeutronDenom::mint` perform no zero-amount check — minting 0 succeeds (and
still emits the token-factory mint and bank-send messages) instead of
failing with a zero-amount error. Only `Cw4626::mint` rejects zero. -/
theorem C4_counterexample :
    resultIsOk (OsmosisDenom.mint ⟨"alice".toList, "vault".toList⟩
        ⟨"cw".toList⟩ ("bob".toList) 0) = true ∧
    resultIsOk (NeutronDenom.mint ⟨"alice".toList, "vault".toList⟩ ⟨none⟩
        ⟨"cw".toList⟩ ("bob".toList) 0).1 = true ∧
    (OsmosisDenom.mint ⟨"alice".toList, "vault".toList⟩
        ⟨"cw".toList⟩ ("bob".toList) 0) ≠ .ok ⟨[], [], []⟩ := by
  refine ⟨rfl, rfl, ?_⟩
  intro h
  simp [OsmosisDenom.mint] at h

/-- Claim C4 (amended): only `Cw4626::mint` validates the amount — minting 0
there fails with `InvalidZeroAmount`, mutates no state and produces no
effects (no response at all); `OsmosisDenom::mint` and `NeutronDenom::mint`
accept a zero amount, succeeding with their usual messages (for Neutron the
tracked supply value is unchanged by the zero mint). -/
theorem C4_amended_zero_mint :
    (∀ (t : Cw4626) (api : AddrApi) (s : Cw4626State) (recipient : RStr),
      Cw4626.mint t api s recipient 0
        = (.error (.cw20ContractError .invalidZeroAmount), s)) ∧
    (∀ (d : OsmosisDenom) (env : Env) (recipient : RStr),
      resultIsOk (d.mint env recipient 0) = true) ∧
    (∀ (d : NeutronDenom) (s : NeutronState) (env : Env) (recipient : RStr),
      s.totalSupply.getD 0 < UINT128_MOD →
      resultIsOk (d.mint s env recipient 0).1 = true ∧
      NeutronDenom.query_total_supply (d.mint s env recipient 0).2
        = NeutronDenom.query_total_supply s) := by
  refine ⟨?_, ?_, ?_⟩
  · intro t api s recipient
    rfl
  · intro d env recipient
    rfl
  · intro d s env recipient hts
    have h1 : checkedAdd (s.totalSupply.getD 0) 0 = some (s.totalSupply.getD 0) := by
      simp only [checkedAdd, Nat.add_zero]
      rw [if_pos hts]
    constructor
    · simp only [NeutronDenom.mint, h1, resultIsOk]
    · simp only [NeutronDenom.mint, h1, NeutronDenom.query_total_supply,
        Option.getD_some]

/-- Witness for the amended C4 at a fresh (never written) Neutron supply slot. -/
theorem C4_amended_zero_mint_witness :
    (Option.getD (α := Nat) none 0 < UINT128_MOD) ∧
    Cw4626.mint ⟨"cw4626".toList⟩ (fun a => some a) sampleState ("bob".toList) 0
      = (.error (.cw20ContractError .invalidZeroAmount), sampleState) ∧
    NeutronDenom.query_total_supply
        (NeutronDenom.mint ⟨"alice".toList, "vault".toList⟩ ⟨none⟩
          ⟨"cw".toList⟩ ("bob".toList) 0).2
      = NeutronDenom.query_total_supply ⟨none⟩ :=
  ⟨by decide,
   C4_amended_zero_mint.1 ⟨"cw4626".toList⟩ (fun a => some a) sampleState
     ("bob".toList),
   (C4_amended_zero_mint.2.2 ⟨"alice".toList, "vault".toList⟩ ⟨none⟩
     ⟨"cw".toList⟩ ("bob".toList) (by decide)).2⟩

/-- Claim C5: for the two backends with locally tracked balance/supply, a
burn of strictly more than the tracked quantity fails with an arithmetic
underflow error and returns the storage unchanged: `Cw4626::burn` when
`amount` exceeds the own balance of the contract, `NeutronDenom::burn` when
`amount` exceeds the tracked total supply. -/
theorem C5_burn_underflow :
    (∀ (t : Cw4626) (s : Cw4626State) (env : Env) (amount : Nat),
      s.getBalance env.contractAddress < amount →
      Cw4626.burn t s env amount
        = (.error (.std (.overflow ⟨.sub, s.getBalance env.contractAddress,
            amount⟩)), s)) ∧
    (∀ (d : NeutronDenom) (s : NeutronState) (env : Env) (amount : Nat),
      NeutronDenom.query_total_supply s < amount →
      NeutronDenom.burn d s env amount
        = (.error (.std (.overflow ⟨.sub, NeutronDenom.query_total_supply s,
            amount⟩)), s)) := by
  constructor
  · intro t s env amount h
    have h' : ¬ amount ≤ (s.balances env.contractAddress).getD 0 :=
      Nat.not_le_of_lt h
    have h1 : checkedSub ((s.balances env.contractAddress).getD 0) amount
        = none := by
      simp only [checkedSub]
      rw [if_neg h']
    simp only [Cw4626.burn, h1, Cw4626State.getBalance]
  · intro d s env amount h
    have h' : ¬ amount ≤ s.totalSupply.getD 0 := Nat.not_le_of_lt h
    have h1 : checkedSub (s.totalSupply.getD 0) amount = none := by
      simp only [checkedSub]
      rw [if_neg h']
    simp only [NeutronDenom.burn, h1, NeutronDenom.query_total_supply]

/-- Witness for C5: burning 5000 against a contract balance of 0 (cw4626)
and against a tracked supply of 1000 (neutron). -/
theorem C5_burn_underflow_witness :
    (Cw4626State.getBalance sampleState ("cw4626".toList) < 5000) ∧
    Cw4626.burn ⟨"cw4626".toList⟩ sampleState ⟨"cw4626".toList⟩ 5000
      = (.error (.std (.overflow ⟨.sub,
          Cw4626State.getBalance sampleState ("cw4626".toList), 5000⟩)),
         sampleState) ∧
    NeutronDenom.burn ⟨"alice".toList, "vault".toList⟩ ⟨some 1000⟩
        ⟨"cw".toList⟩ 5000
      = (.error (.std (.overflow ⟨.sub, 1000, 5000⟩)), ⟨some 1000⟩) :=
  ⟨by decide,
   C5_burn_underflow.1 ⟨"cw4626".toList⟩ sampleState ⟨"cw4626".toList⟩ 5000
     (by decide),
   C5_burn_underflow.2 ⟨"alice".toList, "vault".toList⟩ ⟨some 1000⟩
     ⟨"cw".toList⟩ 5000 (by decide)⟩

/-- Claim C9: for the `Cw4626` backend, if `TOKEN_INFO` was never written,
minting any positive amount fails (with the `Unauthorized` contract error)
and writes nothing to storage. -/
theorem C9_mint_uninitialized (t : Cw4626) (api : AddrApi) (s : Cw4626State)
    (recipient : RStr) (amount : Nat) (hti : s.tokenInfo = none)
    (ha : 0 < amount) :
    Cw4626.mint t api s recipient amount
      = (.error (.cw20ContractError .unauthorized), s) := by
  unfold Cw4626.mint
  rw [if_neg (Nat.pos_iff_ne_zero.mp ha), hti]

/-- Witness for C9: minting 7 on a never-instantiated cw4626 store. -/
theorem C9_mint_uninitialized_witness :
    (Cw4626State.tokenInfo ⟨none, fun _ => none⟩ = none) ∧ (0 < 7) ∧
    Cw4626.mint ⟨"cw4626".toList⟩ (fun a => some a) ⟨none, fun _ => none⟩
        ("bob".toList) 7
      = (.error (.cw20ContractError .unauthorized), ⟨none, fun _ => none⟩) :=
  ⟨rfl, by decide,
   C9_mint_uninitialized ⟨"cw4626".toList⟩ (fun a => some a)
     ⟨none, fun _ => none⟩ ("bob".toList) 7 rfl (by decide)⟩

theorem checkedAdd_some {a b c : Nat} (h : checkedAdd a b = some c) :
    c = a + b ∧ a + b < UINT128_MOD := by
  unfold checkedAdd at h
  split at h
  · rename_i hlt
    cases h
    exact ⟨rfl, hlt⟩
  · cases h

theorem checkedSub_some {a b c : Nat} (h : checkedSub a b = some c) :
    c = a - b ∧ b ≤ a := by
  unfold checkedSub at h
  split at h
  · rename_i hle
    cases h
    exact ⟨rfl, hle⟩
  · cases h

theorem Cw4626.mint_ok_state (t : Cw4626) (api : AddrApi) (s : Cw4626State)
    (recipient rcpt : RStr) (a : Nat)
    (hapi : api recipient = some rcpt)
    (h : resultIsOk (Cw4626.mint t api s recipient a).1 = true) :
    ∃ config, s.tokenInfo = some config ∧
      (Cw4626.mint t api s recipient a).2
        = { tokenInfo := some { config with total_supply := config.total_supply + a },
            balances := setBal s.balances rcpt ((s.balances rcpt).getD 0 + a) } := by
  by_cases h0 : a = 0
  · simp only [Cw4626.mint, if_pos h0, resultIsOk] at h
    exact Bool.noConfusion h
  · cases hti : s.tokenInfo with
    | none =>
      simp only [Cw4626.mint, if_neg h0, hti, resultIsOk] at h
      exact Bool.noConfusion h
    | some config =>
      refine ⟨config, rfl, ?_⟩
      cases hadd : checkedAdd config.total_supply a with
      | none =>
        simp only [Cw4626.mint, if_neg h0, hti, hadd, resultIsOk] at h
        exact Bool.noConfusion h
      | some ts2 =>
        cases hb : checkedAdd ((s.balances rcpt).getD 0) a with
        | none =>
          simp only [Cw4626.mint, if_neg h0, hti, hadd, hapi, hb, resultIsOk] at h
          exact Bool.noConfusion h
        | some bal2 =>
          obtain ⟨hts2, -⟩ := checkedAdd_some hadd
          obtain ⟨hbal2, -⟩ := checkedAdd_some hb
          subst hts2 hbal2
          simp only [Cw4626.mint, if_neg h0, hti, hadd, hapi, hb]

theorem Cw4626.burn_ok_state (t : Cw4626) (s : Cw4626State) (env : Env)
    (a : Nat) (config : TokenInfo) (hti : s.tokenInfo = some config)
    (hbal : a ≤ (s.balances env.contractAddress).getD 0)
    (hts : a ≤ config.total_supply) :
    resultIsOk (Cw4626.burn t s env a).1 = true ∧
    (Cw4626.burn t s env a).2
      = { tokenInfo := some { config with
            total_supply := config.total_supply - a },
          balances := setBal s.balances env.contractAddress
            ((s.balances env.contractAddress).getD 0 - a) } := by
  have h1 : checkedSub ((s.balances env.contractAddress).getD 0) a
      = some ((s.balances env.contractAddress).getD 0 - a) := by
    unfold checkedSub
    rw [if_pos hbal]
  have h2 : checkedSub config.total_supply a = some (config.total_supply - a) := by
    unfold checkedSub
    rw [if_pos hts]
  constructor <;>
    simp only [Cw4626.burn, h1, hti, h2, resultIsOk]

/-- Claim C8: a successful `mint(a)` (`a > 0`) followed by a successful
`burn(a)` restores the locally tracked quantities to their pre-mint values:
for `Cw4626` minting to the own (validation-stable) address of the contract,
both the queried total supply and the contract balance; for `NeutronDenom`, the
locally tracked total supply. -/
theorem C8_mint_burn_roundtrip :
    (∀ (t : Cw4626) (api : AddrApi) (s : Cw4626State) (env : Env) (a : Nat),
      0 < a →
      api env.contractAddress = some env.contractAddress →
      resultIsOk (Cw4626.mint t api s env.contractAddress a).1 = true →
      resultIsOk (Cw4626.burn t (Cw4626.mint t api s env.contractAddress a).2
        env a).1 = true →
      Cw4626.query_total_supply
          (Cw4626.burn t (Cw4626.mint t api s env.contractAddress a).2 env a).2
        = Cw4626.query_total_supply s ∧
      Cw4626State.getBalance
          (Cw4626.burn t (Cw4626.mint t api s env.contractAddress a).2 env a).2
          env.contractAddress
        = s.getBalance env.contractAddress) ∧
    (∀ (d : NeutronDenom) (s : NeutronState) (env : Env) (recipient : RStr)
        (a : Nat),
      0 < a →
      resultIsOk (NeutronDenom.mint d s env recipient a).1 = true →
      resultIsOk (NeutronDenom.burn d (NeutronDenom.mint d s env recipient a).2
        env a).1 = true →
      NeutronDenom.query_total_supply
          (NeutronDenom.burn d (NeutronDenom.mint d s env recipient a).2 env a).2
        = NeutronDenom.query_total_supply s) := by
  constructor
  · intro t api s env a _ha hapi h1 _h2
    obtain ⟨config, hti, hm⟩ :=
      Cw4626.mint_ok_state t api s env.contractAddress env.contractAddress a
        hapi h1
    have hMbal : ((Cw4626.mint t api s env.contractAddress a).2.balances
        env.contractAddress).getD 0
        = (s.balances env.contractAddress).getD 0 + a := by
      rw [hm]
      simp [setBal]
    have hMti : (Cw4626.mint t api s env.contractAddress a).2.tokenInfo
        = some { config with total_supply := config.total_supply + a } := by
      rw [hm]
    obtain ⟨-, hb2⟩ :=
      Cw4626.burn_ok_state t (Cw4626.mint t api s env.contractAddress a).2 env a
        { config with total_supply := config.total_supply + a } hMti
        (by rw [hMbal]; omega)
        (by show a ≤ config.total_supply + a; omega)
    rw [hb2]
    constructor
    · simp [Cw4626.query_total_supply, hti, Nat.add_sub_cancel]
    · simp [Cw4626State.getBalance, setBal, hMbal]
  · intro d s env recipient a _ha h1 _h2
    cases hadd : checkedAdd (s.totalSupply.getD 0) a with
    | none =>
      simp only [NeutronDenom.mint, hadd, resultIsOk] at h1
      exact Bool.noConfusion h1
    | some ts2 =>
      obtain ⟨hts2, -⟩ := checkedAdd_some hadd
      have hsub : checkedSub ts2 a = some (ts2 - a) := by
        simp only [checkedSub]
        rw [if_pos (by omega)]
      simp only [NeutronDenom.mint, hadd, NeutronDenom.burn, Option.getD_some,
        hsub, NeutronDenom.query_total_supply]
      omega

/-- Witness for C8: mint 5 to the contract on `sampleState` (supply 100,
contract balance 0), then burn 5; supply query and balance return to their
pre-mint values. -/
theorem C8_mint_burn_roundtrip_witness :
    (0 < 5) ∧
    ((fun a => some a) ("cw4626".toList) = some ("cw4626".toList)) ∧
    (resultIsOk (Cw4626.mint ⟨"cw4626".toList⟩ (fun a => some a) sampleState
        ("cw4626".toList) 5).1 = true) ∧
    (resultIsOk (Cw4626.burn ⟨"cw4626".toList⟩
        (Cw4626.mint ⟨"cw4626".toList⟩ (fun a => some a) sampleState
          ("cw4626".toList) 5).2 ⟨"cw4626".toList⟩ 5).1 = true) ∧
    Cw4626.query_total_supply
        (Cw4626.burn ⟨"cw4626".toList⟩
          (Cw4626.mint ⟨"cw4626".toList⟩ (fun a => some a) sampleState
            ("cw4626".toList) 5).2 ⟨"cw4626".toList⟩ 5).2
      = Cw4626.query_total_supply sampleState :=
  ⟨by decide, rfl, by decide, by decide,
   (C8_mint_burn_roundtrip.1 ⟨"cw4626".toList⟩ (fun a => some a) sampleState
     ⟨"cw4626".toList⟩ 5 (by decide) rfl (by decide) (by decide)).1⟩

/-- Claim C10: every successful `Cw4626::receive(amount)` whose sender is not
the contract moves exactly `amount` from the balance of the sender to the
balance of the contract: the sender loses `amount` (which they must have had), the
contract gains `amount`, their combined balance is preserved, and the
`TOKEN_INFO` slot — hence the total supply — is untouched. -/
theorem C10_receive_moves_amount (t : Cw4626) (s : Cw4626State) (env : Env)
    (info : MessageInfo) (amount : Nat)
    (hne : info.sender ≠ env.contractAddress)
    (hok : resultIsOk (Cw4626.receive t s env info amount).1 = true) :
    amount ≤ s.getBalance info.sender ∧
    (Cw4626.receive t s env info amount).2.getBalance info.sender
      = s.getBalance info.sender - amount ∧
    (Cw4626.receive t s env info amount).2.getBalance env.contractAddress
      = s.getBalance env.contractAddress + amount ∧
    (Cw4626.receive t s env info amount).2.tokenInfo = s.tokenInfo ∧
    (Cw4626.receive t s env info amount).2.getBalance info.sender
        + (Cw4626.receive t s env info amount).2.getBalance env.contractAddress
      = s.getBalance info.sender + s.getBalance env.contractAddress := by
  cases hsub : checkedSub ((s.balances info.sender).getD 0) amount with
  | none =>
    simp only [Cw4626.receive, hsub, resultIsOk] at hok
    exact Bool.noConfusion hok
  | some ob2 =>
    obtain ⟨hob2, hle⟩ := checkedSub_some hsub
    have hrc : setBal s.balances info.sender ob2 env.contractAddress
        = s.balances env.contractAddress := by
      simp [setBal, Ne.symm hne]
    cases hadd : checkedAdd ((s.balances env.contractAddress).getD 0) amount with
    | none =>
      simp only [Cw4626.receive, hsub, hrc, hadd, resultIsOk] at hok
      exact Bool.noConfusion hok
    | some rb2 =>
      obtain ⟨hrb2, -⟩ := checkedAdd_some hadd
      refine ⟨hle, ?_, ?_, ?_, ?_⟩ <;>
        simp [Cw4626.receive, hsub, hrc, hadd, Cw4626State.getBalance,
          setBal, hne, Ne.symm hne] <;>
        omega

/-- Witness for C10: `sender` (balance 1000) sends 250 into the contract. -/
theorem C10_receive_moves_amount_witness :
    ("sender".toList ≠ "cw4626".toList) ∧
    (resultIsOk (Cw4626.receive ⟨"cw4626".toList⟩ sampleState ⟨"cw4626".toList⟩
        ⟨"sender".toList, []⟩ 250).1 = true) ∧
    (Cw4626.receive ⟨"cw4626".toList⟩ sampleState ⟨"cw4626".toList⟩
        ⟨"sender".toList, []⟩ 250).2.getBalance ("sender".toList)
      = Cw4626State.getBalance sampleState ("sender".toList) - 250 :=
  ⟨by decide, by decide,
   (C10_receive_moves_amount ⟨"cw4626".toList⟩ sampleState ⟨"cw4626".toList⟩
     ⟨"sender".toList, []⟩ 250 (by decide) (by decide)).2.1⟩
